import Mathlib

/-!
Shallow embedding of `get_tr_docs.py`: a five-stage pipeline (local folder
reconciliation, document download via `pytr`, CSV export, Nextcloud folder
creation, Nextcloud file upload) whose path arithmetic, flag gating and
remote-call sequences are modelled here.  Pure path computations are embedded
over `String`/`List Char`; the filesystem, the two subprocesses and the
Nextcloud client are environments passed in explicitly, and each stage
returns the calls it issued and the lines it printed.
-/

namespace GetTrDocs

/-- Model of `str.startswith` over the character list (the built-in
`String.startsWith` does not reduce in the kernel). -/
def strStartsWith (s pre : String) : Bool :=
  pre.data.isPrefixOf s.data

/-- Model of `str.endswith` over the character list. -/
def strEndsWith (s suf : String) : Bool :=
  suf.data.isSuffixOf s.data

/-- Two-argument posix `os.path.join`: the second component replaces the first
when absolute, otherwise it is appended after a separator (no separator is
inserted after an empty or slash-terminated first component). -/
def osPathJoin (a b : String) : String :=
  if strStartsWith b "/" then b
  else if a = "" || strEndsWith a "/" then a ++ b
  else a ++ "/" ++ b

/-- Model of `str.split` at a single separator character: splits at every occurrence,
keeping empty pieces, so that `"a//b".split("/")` is `["a", "", "b"]`. -/
def splitOnChar (sep : Char) : List Char → List (List Char)
  | [] => [[]]
  | c :: cs =>
    if c = sep then [] :: splitOnChar sep cs
    else
      match splitOnChar sep cs with
      | g :: gs => (c :: g) :: gs
      | [] => [[c]]

/-- Model of `"/".join(parts)`.  This also models `posixpath.join(*parts)` whenever no
part is absolute, which holds for every use below (the parts come from
splitting at `/`, so they contain no separator). -/
def joinSlash : List String → String
  | [] => ""
  | [p] => p
  | p :: ps => p ++ "/" ++ joinSlash ps

/-- The nonempty components of a path string, as computed by
`[x for x in path.split(sep) if x]` inside `posixpath.relpath`. -/
def pathComponents (p : String) : List String :=
  ((splitOnChar '/' p.data).map String.mk).filter (fun c => c ≠ "")

/-- Length of the longest common prefix of two lists, as computed by
`os.path.commonprefix` on the pair of component lists. -/
def commonPrefixLen : List String → List String → Nat
  | a :: as, b :: bs => if a = b then commonPrefixLen as bs + 1 else 0
  | _, _ => 0

/-- Model of `posixpath.relpath(path, start)` for inputs resolved against the same
working directory (the shared prefix contributed by `abspath` cancels in the
common-prefix computation, so it is omitted): drop the common component
prefix, ascend once per remaining `start` component, then descend into the
remaining `path` components. -/
def relpath (path start : String) : String :=
  let pathList := pathComponents path
  let startList := pathComponents start
  let i := commonPrefixLen startList pathList
  let rel := List.replicate (startList.length - i) ".." ++ pathList.drop i
  if rel = [] then "." else joinSlash rel

/-- Python `.replace("\\", "/")`: the pattern and the replacement are single
characters, so the call substitutes characterwise. -/
def replaceBackslash (s : String) : String :=
  String.mk (s.data.map (fun c => if c = '\\' then '/' else c))

/-- Model of `pathlib.PurePosixPath(p).parts`: a leading slash becomes a root part,
followed by the nonempty components (`.` segments, absent from every path
built here, are not modelled). -/
def pathParts (p : String) : List String :=
  if strStartsWith p "/" then "/" :: pathComponents p else pathComponents p

/-- The remote destination computed for one local file by
`upload_docs_to_nextcloud`:
`os.path.join(nc_tr_document_folder, os.path.relpath(local_file_path, tr_doc_download_path)).replace("\\", "/")`. -/
def remote_file_path (nc_tr_document_folder tr_doc_download_path local_file_path : String) : String :=
  replaceBackslash (osPathJoin nc_tr_document_folder (relpath local_file_path tr_doc_download_path))

/-- The state of the local download path on disk, as distinguished by
`os.path.isdir` and `os.listdir`. -/
inductive DirState where
  | absent
  | plainFile
  | dir (entries : List String)
deriving DecidableEq

/-- Observable outcome of `remove_existing_dl_folder`: the state the path is
left in, whether `shutil.rmtree` was invoked, and the lines printed. -/
structure RemoveResult where
  state : DirState
  rmtreeCalled : Bool
  printed : List String
deriving DecidableEq

/-- Embedding of `remove_existing_dl_folder`: after the opening print, `shutil.rmtree` runs
only when `os.path.isdir` holds and `os.listdir` is nonempty; an empty
directory is kept silently, and a missing directory only prints. -/
def remove_existing_dl_folder (tr_doc_download_path : String) (st : DirState) : RemoveResult :=
  match st with
  | DirState.dir entries =>
    if entries.length > 0 then
      RemoveResult.mk DirState.absent true
        ["Checking for existing download folder.",
         "Deleted existing & not empty doc path: \x27" ++ tr_doc_download_path ++ "\x27"]
    else
      RemoveResult.mk (DirState.dir entries) false
        ["Checking for existing download folder."]
  | st =>
    RemoveResult.mk st false
      ["Checking for existing download folder.",
       "All good, no folder found. Starting download."]

/-- Observable outcome of `download_docs` after `communicate()` returns: the
captured stdout is printed, stderr is printed when nonempty, and the return
code is printed — and used for nothing else. -/
def download_docs (output error : String) (returncode : Int) : List String :=
  [output] ++
  (if error ≠ "" then ["Error: " ++ error] else []) ++
  ["Doc download process exited with return code: " ++ toString returncode]

/-- Model of `time.strftime("%Y%m%d")` for a date with a four-digit year: eight
zero-padded decimal digits. -/
def strftimeYmd (year month day : Nat) : String :=
  String.mk
    [Nat.digitChar (year / 1000 % 10), Nat.digitChar (year / 100 % 10),
     Nat.digitChar (year / 10 % 10), Nat.digitChar (year % 10),
     Nat.digitChar (month / 10 % 10), Nat.digitChar (month % 10),
     Nat.digitChar (day / 10 % 10), Nat.digitChar (day % 10)]

/-- Embedding of `pp_csv_source_events` in `create_pp_csv`:
`os.path.join(tr_doc_download_path, "all_events.json")`. -/
def pp_csv_source_events (tr_doc_download_path : String) : String :=
  osPathJoin tr_doc_download_path "all_events.json"

/-- Embedding of `pp_csv_name` in `create_pp_csv`: `f"{timestr}_pp_import.csv"`. -/
def pp_csv_name (year month day : Nat) : String :=
  strftimeYmd year month day ++ "_pp_import.csv"

/-- Embedding of `pp_csv_path` in `create_pp_csv`:
`os.path.join(tr_doc_download_path, pp_csv_name)`. -/
def pp_csv_path (tr_doc_download_path : String) (year month day : Nat) : String :=
  osPathJoin tr_doc_download_path (pp_csv_name year month day)

/-- The argument vector `pytr_pp_csv_args` handed to `subprocess.Popen` by
`create_pp_csv`. -/
def pytr_pp_csv_args (tr_doc_download_path : String) (year month day : Nat) : List String :=
  ["pytr", "export_transactions",
   pp_csv_source_events tr_doc_download_path,
   pp_csv_path tr_doc_download_path year month day]

/-- Lines printed by `create_pp_csv` after `communicate()` returns. -/
def create_pp_csv_printed (returncode : Int) : List String :=
  ["CSV generation process exited with return code: " ++ toString returncode]

/-- The remote directory path built for one local directory by
`create_nextcloud_folders`:
`os.path.join(nc_tr_document_folder, "/".join(directory.parts[1:])).replace("\\", "/")`,
where the local directory is given by its `pathlib` parts. -/
def nc_subdir_path (nc_tr_document_folder : String) (parts : List String) : String :=
  replaceBackslash (osPathJoin nc_tr_document_folder (joinSlash parts.tail))

/-- Observable outcome of `create_nextcloud_folders`: the remote paths passed
to `nc.files.makedirs`, in order, and the lines printed. -/
structure FoldersResult where
  makedirsCalls : List String
  printed : List String
deriving DecidableEq

/-- Embedding of `create_nextcloud_folders`: here `search_result` holds the names returned by
`nc.files.find(["eq", "name", basename])` as compared by the `in` test;
`dirs` holds the `parts` of each directory found by
`Path(tr_doc_download_path).rglob("*")`, in order.  The creation loop runs
only when the search result is falsy (empty) or the `--ffc` flag is set, and
the configured folder string is not an element of the search result. -/
def create_nextcloud_folders (search_result : List String) (ffc : Bool)
    (nc_tr_document_folder : String) (dirs : List (List String)) : FoldersResult :=
  if search_result.isEmpty || ffc then
    if nc_tr_document_folder ∉ search_result then
      FoldersResult.mk
        (dirs.map (nc_subdir_path nc_tr_document_folder))
        (["Creating upload target folders in \x27" ++ nc_tr_document_folder ++ "\x27"] ++
         dirs.map (fun d => "Creating dir: " ++ joinSlash d.tail) ++
         ["Folder creation successful!"])
    else
      FoldersResult.mk [] []
  else
    FoldersResult.mk [] ["Skip folder creation! Already existing!"]

/-- One file visited by `os.walk` inside `upload_docs_to_nextcloud`: the
directory `root`, the file name, and the bytes behind the opened handle. -/
structure WalkFile (β : Type) where
  root : String
  name : String
  content : β

/-- Observable outcome of `upload_docs_to_nextcloud`: the
`(remote path, content)` pairs passed to `nc.files.upload_stream` in order,
the lines printed, and the exception that escaped, if any. -/
structure UploadResult (ε β : Type) where
  calls : List (String × β)
  printed : List String
  raised : Option ε

/-- The per-file loop of `upload_docs_to_nextcloud`, with
`nc.files.upload_stream` modelled by an oracle `env` that either succeeds or
raises.  The body has no `try`/`except`, so a raise stops the walk at once. -/
def uploadLoop (ε β : Type) (env : String → β → Option ε)
    (nc_tr_document_folder tr_doc_download_path : String) :
    List (WalkFile β) → List (String × β) × List String × Option ε
  | [] => ([], [], none)
  | f :: rest =>
    let local_file_path := osPathJoin f.root f.name
    let rfp := remote_file_path nc_tr_document_folder tr_doc_download_path local_file_path
    let line := "Uploading file " ++ joinSlash ((pathParts rfp).drop 4)
    match env rfp f.content with
    | some e => ([(rfp, f.content)], [line], some e)
    | none =>
      match uploadLoop ε β env nc_tr_document_folder tr_doc_download_path rest with
      | (cs, ls, r) => ((rfp, f.content) :: cs, line :: ls, r)

/-- Embedding of `upload_docs_to_nextcloud`: the opening print, the walk over all files,
and the closing success print, which is reached only when no upload raised. -/
def upload_docs_to_nextcloud (ε β : Type) (env : String → β → Option ε)
    (nc_tr_document_folder tr_doc_download_path : String)
    (walk : List (WalkFile β)) : UploadResult ε β :=
  match uploadLoop ε β env nc_tr_document_folder tr_doc_download_path walk with
  | (cs, ls, r) =>
    UploadResult.mk cs
      (("Uploading files and folders from \x27" ++ tr_doc_download_path ++
          "\x27 to \x27" ++ nc_tr_document_folder) ::
        ls ++ (match r with | none => ["Upload to nextcloud successful!"] | some _ => []))
      r

/-- The remote file tree: contents by remote path. -/
def Remote (β : Type) : Type := String → Option β

/-- Model of `nc.files.upload_stream`: stores the streamed bytes at the remote path,
overwriting unconditionally (the client performs no existence check). -/
def upload_stream (β : Type) (r : Remote β) (path : String) (content : β) : Remote β :=
  fun q => if q = path then some content else r q

/-- Effect of a sequence of issued upload calls on the remote tree. -/
def applyUploads (β : Type) (r : Remote β) (calls : List (String × β)) : Remote β :=
  calls.foldl (fun s c => upload_stream β s c.1 c.2) r

/-- The five stage functions called from the top level. -/
inductive Stage where
  | removeExistingDlFolder
  | downloadDocs
  | createPpCsv
  | createNextcloudFolders
  | uploadDocsToNextcloud
deriving DecidableEq

/-- The parsed command-line flags, in `argparse` declaration order. -/
structure Args where
  nodl : Bool
  skipdel : Bool
  nocsv : Bool
  noupload : Bool
  ffc : Bool
deriving DecidableEq

/-- The two configured paths the stages consume. -/
structure Config where
  tr_doc_download_path : String
  nc_tr_document_folder : String

/-- Everything outside the script that the stages observe: the local download
path state, the two subprocess transcripts, the Nextcloud search result, the
local directory and file listings, and the upload oracle. -/
structure Env (ε β : Type) where
  dirState : DirState
  dlOutput : String
  dlError : String
  dlReturncode : Int
  csvReturncode : Int
  search_result : List String
  rglobDirs : List (List String)
  walk : List (WalkFile β)
  uploadEnv : String → β → Option ε

/-- The top-level sequencing: which stage functions run, in order, and what
they print, as a function of the parsed flags and the environment.  The
download return code flows into the printed report only; no gate consults
it. -/
def mainRun (ε β : Type) (cfg : Config) (args : Args) (env : Env ε β) :
    List Stage × List String :=
  let delPart : List Stage × List String :=
    if !args.skipdel then
      ([Stage.removeExistingDlFolder],
       (remove_existing_dl_folder cfg.tr_doc_download_path env.dirState).printed)
    else ([], [])
  let dlPart : List Stage × List String :=
    if !args.nodl then
      ([Stage.downloadDocs], download_docs env.dlOutput env.dlError env.dlReturncode)
    else ([], [])
  let csvPart : List Stage × List String :=
    if !args.nocsv && (!args.nodl || !args.skipdel) then
      ([Stage.createPpCsv], create_pp_csv_printed env.csvReturncode)
    else ([], [])
  let upPart : List Stage × List String :=
    if !args.noupload then
      ([Stage.createNextcloudFolders, Stage.uploadDocsToNextcloud],
       (create_nextcloud_folders env.search_result args.ffc cfg.nc_tr_document_folder
          env.rglobDirs).printed ++
       (upload_docs_to_nextcloud ε β env.uploadEnv cfg.nc_tr_document_folder
          cfg.tr_doc_download_path env.walk).printed)
    else ([], [])
  (delPart.1 ++ dlPart.1 ++ csvPart.1 ++ upPart.1,
   delPart.2 ++ dlPart.2 ++ csvPart.2 ++ upPart.2)

/-- Modelled from the spec (claim C1), for comparison with the code: the
remote directory created for a local directory is the configured remote base
folder joined with the directory's path relative to the local target path,
separators normalized to `/`. -/
def specRemoteDirPath (nc_tr_document_folder tr_doc_download_path : String)
    (parts : List String) : String :=
  replaceBackslash
    (osPathJoin nc_tr_document_folder (relpath (joinSlash parts) tr_doc_download_path))

/-! ### Helper lemmas -/

lemma commonPrefixLen_self_append (a b : List String) :
    commonPrefixLen a (a ++ b) = a.length := by
  induction a with
  | nil => cases b <;> rfl
  | cons x xs ih => simp [commonPrefixLen, ih]

lemma relpath_of_components (lp target : String) (rel : List String)
    (hsplit : pathComponents lp = pathComponents target ++ rel) (hrel : rel ≠ []) :
    relpath lp target = joinSlash rel := by
  unfold relpath
  rw [hsplit]
  simp [commonPrefixLen_self_append, List.drop_left, hrel]

lemma splitOnChar_of_not_mem (sep : Char) (a : List Char) (h : sep ∉ a) :
    splitOnChar sep a = [a] := by
  induction a with
  | nil => rfl
  | cons c cs ih =>
    have hc : ¬ c = sep := fun e => h (by simp [e])
    have hcs : sep ∉ cs := fun m => h (by simp [m])
    simp [splitOnChar, hc, ih hcs]

lemma splitOnChar_append_sep (sep : Char) (a rest : List Char) (h : sep ∉ a) :
    splitOnChar sep (a ++ sep :: rest) = a :: splitOnChar sep rest := by
  induction a with
  | nil => simp [splitOnChar]
  | cons c cs ih =>
    have hc : ¬ c = sep := fun e => h (by simp [e])
    have hcs : sep ∉ cs := fun m => h (by simp [m])
    simp [splitOnChar, hc, ih hcs]

lemma data_joinSlash_cons (p q : String) (ps : List String) :
    (joinSlash (p :: q :: ps)).data = p.data ++ '/' :: (joinSlash (q :: ps)).data := by
  show (p ++ "/" ++ joinSlash (q :: ps)).data = _
  simp [String.data_append]

lemma splitOnChar_joinSlash (ps : List String) (hne : ps ≠ [])
    (h : ∀ p ∈ ps, '/' ∉ p.data) :
    splitOnChar '/' (joinSlash ps).data = ps.map String.data := by
  induction ps with
  | nil => exact absurd rfl hne
  | cons p ps ih =>
    cases ps with
    | nil => simp [joinSlash, splitOnChar_of_not_mem '/' p.data (h p (by simp))]
    | cons q qs =>
      rw [data_joinSlash_cons, splitOnChar_append_sep '/' p.data _ (h p (by simp)),
        ih (by simp) (fun r hr => h r (by simp [hr]))]
      rfl

lemma pathComponents_joinSlash (ps : List String) (hne : ps ≠ [])
    (h : ∀ p ∈ ps, p ≠ "" ∧ '/' ∉ p.data) :
    pathComponents (joinSlash ps) = ps := by
  unfold pathComponents
  rw [splitOnChar_joinSlash ps hne (fun p hp => (h p hp).2), List.map_map]
  have hmk : ps.map (String.mk ∘ String.data) = ps := List.map_id ps
  rw [hmk]
  exact List.filter_eq_self.mpr (fun a ha => by simp [(h a ha).1])

lemma osPathJoin_of_rel (a b : String) (ha : a ≠ "") (ha2 : strEndsWith a "/" = false)
    (hb : strStartsWith b "/" = false) : osPathJoin a b = a ++ "/" ++ b := by
  unfold osPathJoin
  simp [ha, ha2, hb]

lemma digitChar_mod_ne_slash (n : Nat) : Nat.digitChar (n % 10) ≠ '/' := by
  have hlt : n % 10 < 10 := Nat.mod_lt _ (by decide)
  have all10 : ∀ k < 10, Nat.digitChar k ≠ '/' := by decide
  exact all10 _ hlt

lemma pp_csv_name_not_slash (y m d : Nat) :
    strStartsWith (strftimeYmd y m d ++ "_pp_import.csv") "/" = false := by
  unfold strStartsWith strftimeYmd
  rw [String.data_append]
  have hd := digitChar_mod_ne_slash (y / 1000)
  simp [List.isPrefixOf]
  exact fun e => hd e.symm

lemma applyUploads_untouched (β : Type) (calls : List (String × β)) :
    ∀ (r : Remote β) (q : String), (∀ pc ∈ calls, pc.1 ≠ q) →
      applyUploads β r calls q = r q := by
  induction calls with
  | nil => intro r q _; rfl
  | cons pc rest ih =>
    intro r q h
    have step : applyUploads β r (pc :: rest) = applyUploads β (upload_stream β r pc.1 pc.2) rest := rfl
    rw [step, ih _ q (fun x hx => h x (by simp [hx]))]
    unfold upload_stream
    have : ¬ q = pc.1 := fun e => h pc (by simp) e.symm
    simp [this]

lemma applyUploads_congr (β : Type) (calls : List (String × β)) :
    ∀ (r s : Remote β) (q : String),
      (r q = s q ∨ ∃ pc ∈ calls, pc.1 = q) →
      applyUploads β r calls q = applyUploads β s calls q := by
  induction calls with
  | nil =>
    intro r s q h
    rcases h with h | ⟨pc, hm, _⟩
    · exact h
    · simp at hm
  | cons pc rest ih =>
    intro r s q h
    have stepr : applyUploads β r (pc :: rest) = applyUploads β (upload_stream β r pc.1 pc.2) rest := rfl
    have steps : applyUploads β s (pc :: rest) = applyUploads β (upload_stream β s pc.1 pc.2) rest := rfl
    rw [stepr, steps]
    apply ih
    rcases h with h | ⟨pc2, hm, he⟩
    · left
      unfold upload_stream
      by_cases hq : q = pc.1 <;> simp [hq, h]
    · rcases List.mem_cons.mp hm with rfl | hm2
      · left
        unfold upload_stream
        simp [he.symm]
      · right
        exact ⟨pc2, hm2, he⟩

/-! ### Claim theorems -/

/-- Claim C1 fails as stated: with an empty search result (creation branch
runs), target path `a/b` and local directory `a/b/c`, the code creates
`TR/b/c` — the base folder joined with all parts of the directory after the
first — while the base folder joined with the directory's path relative to
the target path is `TR/c`. -/
theorem create_folders_not_relative_counterexample :
    (create_nextcloud_folders [] false "TR" [["a", "b", "c"]]).makedirsCalls = ["TR/b/c"] ∧
    specRemoteDirPath "TR" "a/b" ["a", "b", "c"] = "TR/c" ∧
    (create_nextcloud_folders [] false "TR" [["a", "b", "c"]]).makedirsCalls ≠
      [specRemoteDirPath "TR" "a/b" ["a", "b", "c"]] :=
  ⟨by decide, by decide, by decide⟩

/-- Claim C1 (amended): when the creation branch runs (empty search result or
force flag) and the configured folder is not in the search result, the
synchronizer creates, for every directory `d` under the local target path,
the remote base folder joined with the `/`-join of `d`'s path parts after
dropping the first part; this coincides with the base folder joined with
`d`'s path relative to the target path exactly when the target path is a
single path component. -/
theorem create_folders_drops_first_part (sr : List String) (ffc : Bool) (base t : String)
    (dirs : List (List String))
    (hcond : sr = [] ∨ ffc = true) (hmem : base ∉ sr)
    (hdirs : ∀ d ∈ dirs, ∃ rest, rest ≠ [] ∧ d = t :: rest)
    (hparts : ∀ d ∈ dirs, ∀ p ∈ d, p ≠ "" ∧ '/' ∉ p.data) :
    (create_nextcloud_folders sr ffc base dirs).makedirsCalls = dirs.map (nc_subdir_path base) ∧
    ∀ d ∈ dirs, nc_subdir_path base d = specRemoteDirPath base t d := by
  constructor
  · unfold create_nextcloud_folders
    have houter : (sr.isEmpty || ffc) = true := by
      rcases hcond with rfl | h
      · simp
      · simp [h]
    rw [if_pos houter, if_pos hmem]
  · intro d hd
    obtain ⟨rest, hrest, rfl⟩ := hdirs d hd
    have ht : t ≠ "" ∧ '/' ∉ t.data := hparts _ hd t (by simp)
    have h1 : pathComponents (joinSlash (t :: rest)) = t :: rest :=
      pathComponents_joinSlash (t :: rest) (by simp) (hparts _ hd)
    have h2 : pathComponents t = [t] := by
      have h3 := pathComponents_joinSlash [t] (by simp)
        (fun p hp => by rw [List.mem_singleton.mp hp]; exact ht)
      exact h3
    have hsplit : pathComponents (joinSlash (t :: rest)) = pathComponents t ++ rest := by
      rw [h1, h2]
      rfl
    unfold nc_subdir_path specRemoteDirPath
    rw [relpath_of_components _ t rest hsplit hrest]
    rfl

/-- Witness for the amended claim C1 at a concrete input. -/
theorem create_folders_drops_first_part_witness :
    (create_nextcloud_folders [] false "TR/Docs" [["downloads", "2024"]]).makedirsCalls =
      [["downloads", "2024"]].map (nc_subdir_path "TR/Docs") ∧
    ∀ d ∈ [["downloads", "2024"]],
      nc_subdir_path "TR/Docs" d = specRemoteDirPath "TR/Docs" "downloads" d :=
  create_folders_drops_first_part [] false "TR/Docs" "downloads" [["downloads", "2024"]]
    (Or.inl rfl) (by simp)
    (by
      intro d hd
      rw [List.mem_singleton.mp hd]
      exact ⟨["2024"], by simp, rfl⟩)
    (by
      intro d hd
      rw [List.mem_singleton.mp hd]
      decide)

/-- Claim C2: for every local file under the target path (its components
extend the target path's components by a nonempty relative part), the
uploader's remote destination is the configured remote base folder joined
with the file's path relative to the target path, with every backslash
replaced by a forward slash; in particular the scenario
`downloads/2024/doc1.pdf` under target `downloads` with base `TR/Docs` is
uploaded to `TR/Docs/2024/doc1.pdf`. -/
theorem uploader_remote_path (base target lp : String) (rel : List String)
    (hsplit : pathComponents lp = pathComponents target ++ rel) (hrel : rel ≠ []) :
    remote_file_path base target lp = replaceBackslash (osPathJoin base (joinSlash rel)) ∧
    remote_file_path "TR/Docs" "downloads" "downloads/2024/doc1.pdf" =
      "TR/Docs/2024/doc1.pdf" := by
  refine ⟨?_, by decide⟩
  unfold remote_file_path
  rw [relpath_of_components lp target rel hsplit hrel]

/-- Witness for claim C2 at the scenario input. -/
theorem uploader_remote_path_witness :
    pathComponents "downloads/2024/doc1.pdf" = pathComponents "downloads" ++ ["2024", "doc1.pdf"] ∧
    remote_file_path "TR/Docs" "downloads" "downloads/2024/doc1.pdf" =
      replaceBackslash (osPathJoin "TR/Docs" (joinSlash ["2024", "doc1.pdf"])) :=
  ⟨by decide,
   (uploader_remote_path "TR/Docs" "downloads" "downloads/2024/doc1.pdf" ["2024", "doc1.pdf"]
      (by decide) (by decide)).1⟩

/-- Claim C3: a nonempty existing directory is removed recursively (absent
afterwards, `rmtree` invoked); an empty directory and an absent path are
left untouched with no deletion attempt — hence no deletion error can
arise. -/
theorem reconciler_contract (p : String) :
    (∀ entries, entries ≠ ([] : List String) →
        (remove_existing_dl_folder p (DirState.dir entries)).state = DirState.absent ∧
        (remove_existing_dl_folder p (DirState.dir entries)).rmtreeCalled = true) ∧
    ((remove_existing_dl_folder p (DirState.dir [])).state = DirState.dir [] ∧
     (remove_existing_dl_folder p (DirState.dir [])).rmtreeCalled = false) ∧
    ((remove_existing_dl_folder p DirState.absent).state = DirState.absent ∧
     (remove_existing_dl_folder p DirState.absent).rmtreeCalled = false) := by
  refine ⟨?_, by simp [remove_existing_dl_folder], by simp [remove_existing_dl_folder]⟩
  intro entries h
  have hlen : entries.length > 0 := List.length_pos.mpr h
  simp [remove_existing_dl_folder, hlen]

/-- Witness for claim C3 at a concrete nonempty directory. -/
theorem reconciler_contract_witness :
    (["doc.pdf"] ≠ ([] : List String)) ∧
    (remove_existing_dl_folder "downloads" (DirState.dir ["doc.pdf"])).state = DirState.absent :=
  ⟨by simp, ((reconciler_contract "downloads").1 ["doc.pdf"] (by simp)).1⟩

/-- Claim C5: a nonempty search result with the force flag unset issues zero
`makedirs` calls and prints the skip message. -/
theorem folder_creation_skipped_on_match (sr : List String) (base : String)
    (dirs : List (List String)) (h : sr ≠ []) :
    create_nextcloud_folders sr false base dirs =
      FoldersResult.mk [] ["Skip folder creation! Already existing!"] := by
  cases sr with
  | nil => exact absurd rfl h
  | cons a l => rfl

/-- Witness for claim C5 at a concrete search result. -/
theorem folder_creation_skipped_on_match_witness :
    (["TR"] ≠ ([] : List String)) ∧
    create_nextcloud_folders ["TR"] false "TR" [["downloads", "2024"]] =
      FoldersResult.mk [] ["Skip folder creation! Already existing!"] :=
  ⟨by simp, folder_creation_skipped_on_match ["TR"] "TR" [["downloads", "2024"]] (by simp)⟩

/-- Claim C10: even with the force flag set, when the configured folder
string is an element of the (hence nonempty) search result, the inner
membership gate stops the creation loop: no `makedirs` call and no print at
all. -/
theorem force_create_inner_gate (sr : List String) (base : String)
    (dirs : List (List String)) (h : base ∈ sr) :
    create_nextcloud_folders sr true base dirs = FoldersResult.mk [] [] := by
  unfold create_nextcloud_folders
  simp [h]

/-- Witness for claim C10 at a concrete matching search result. -/
theorem force_create_inner_gate_witness :
    ("TR/Docs" ∈ ["TR/Docs"]) ∧
    create_nextcloud_folders ["TR/Docs"] true "TR/Docs" [["downloads", "2024"]] =
      FoldersResult.mk [] [] :=
  ⟨by simp, force_create_inner_gate ["TR/Docs"] "TR/Docs" [["downloads", "2024"]] (by simp)⟩

/-- Claim C9: re-running the uploader over an unchanged local tree is
idempotent.  The uploader is deterministic, so the second run issues the same
call sequence; applying that sequence to the remote tree twice (each call an
unconditional overwrite into a map keyed by remote path, so no duplicate
entries can exist) leaves the tree of the first run unchanged. -/
theorem upload_idempotent (ε β : Type) (env : String → β → Option ε) (nc tr : String)
    (walk : List (WalkFile β)) (r : Remote β) :
    applyUploads β (applyUploads β r (upload_docs_to_nextcloud ε β env nc tr walk).calls)
        (upload_docs_to_nextcloud ε β env nc tr walk).calls =
      applyUploads β r (upload_docs_to_nextcloud ε β env nc tr walk).calls := by
  generalize (upload_docs_to_nextcloud ε β env nc tr walk).calls = calls
  funext q
  by_cases h : ∃ pc ∈ calls, pc.1 = q
  · exact applyUploads_congr β calls _ _ q (Or.inr h)
  · push_neg at h
    exact applyUploads_untouched β calls _ q h

/-- Claim C6: the CSV export stage reads its input from `all_events.json`
inside the target path and writes its output to `{YYYYMMDD}_pp_import.csv`
inside the target path, for any date and any plain target path. -/
theorem csv_export_fixed_names (P : String) (y m d : Nat)
    (h1 : P ≠ "") (h2 : strEndsWith P "/" = false) :
    pytr_pp_csv_args P y m d =
      ["pytr", "export_transactions",
       P ++ "/" ++ "all_events.json",
       P ++ "/" ++ (strftimeYmd y m d ++ "_pp_import.csv")] := by
  unfold pytr_pp_csv_args pp_csv_source_events pp_csv_path pp_csv_name
  rw [osPathJoin_of_rel P "all_events.json" h1 h2 (by decide),
    osPathJoin_of_rel P _ h1 h2 (pp_csv_name_not_slash y m d)]

/-- Claim C4: under `skip-deletion = false`, `skip-download = true`,
`skip-CSV = false` (remaining flags arbitrary), the sequencer runs the
reconciler, does not run the download stage, and does run the CSV export
stage, whose gate `¬nocsv ∧ (¬nodl ∨ ¬skipdel)` holds because skip-deletion
is false. -/
theorem flag_scenario_skip_download (ε β : Type) (cfg : Config) (env : Env ε β)
    (noupload ffc : Bool) :
    Stage.removeExistingDlFolder ∈
      (mainRun ε β cfg (Args.mk true false false noupload ffc) env).1 ∧
    Stage.downloadDocs ∉ (mainRun ε β cfg (Args.mk true false false noupload ffc) env).1 ∧
    Stage.createPpCsv ∈ (mainRun ε β cfg (Args.mk true false false noupload ffc) env).1 := by
  cases noupload <;> simp [mainRun]

/-- Claim C7: the download return code reaches only the printed report; the
stage list is independent of it, the report line carrying the code is printed
whenever the download stage ran, and the CSV export and upload stages run
exactly under their own flag gates, whatever the code was. -/
theorem download_exit_nonfatal (ε β : Type) (cfg : Config) (args : Args)
    (ds : DirState) (out err : String) (rc rc2 crc : Int) (sr : List String)
    (dirs : List (List String)) (walk : List (WalkFile β)) (up : String → β → Option ε) :
    (mainRun ε β cfg args (Env.mk ds out err rc crc sr dirs walk up)).1 =
      (mainRun ε β cfg args (Env.mk ds out err rc2 crc sr dirs walk up)).1 ∧
    (args.nodl = false →
      ("Doc download process exited with return code: " ++ toString rc) ∈
        (mainRun ε β cfg args (Env.mk ds out err rc crc sr dirs walk up)).2) ∧
    (Stage.createPpCsv ∈ (mainRun ε β cfg args (Env.mk ds out err rc crc sr dirs walk up)).1 ↔
      args.nocsv = false ∧ (args.nodl = false ∨ args.skipdel = false)) ∧
    (Stage.uploadDocsToNextcloud ∈
        (mainRun ε β cfg args (Env.mk ds out err rc crc sr dirs walk up)).1 ↔
      args.noupload = false) := by
  obtain ⟨nodl, skipdel, nocsv, noupload, ffc⟩ := args
  cases nodl <;> cases skipdel <;> cases nocsv <;> cases noupload <;>
    simp [mainRun, download_docs]

/-- Witness for claim C7 at concrete flags and return code 23. -/
theorem download_exit_nonfatal_witness :
    ((Args.mk false false false false false).nodl = false) ∧
    ("Doc download process exited with return code: " ++ toString (23 : Int)) ∈
      (mainRun Unit Unit (Config.mk "downloads" "TR/Docs")
          (Args.mk false false false false false)
          (Env.mk DirState.absent "out" "" 23 0 [] [] [] (fun _ _ => none))).2 :=
  ⟨rfl,
   (download_exit_nonfatal Unit Unit (Config.mk "downloads" "TR/Docs")
      (Args.mk false false false false false) DirState.absent "out" "" 23 0 0 [] [] []
      (fun _ _ => none)).2.1 rfl⟩

/-- The walk stops at the first raising upload: the loop's issued calls are
exactly the successful prefix followed by the failing call, and the
exception escapes. -/
lemma uploadLoop_error (ε β : Type) (env : String → β → Option ε) (nc tr : String)
    (f : WalkFile β) (post : List (WalkFile β)) (e : ε)
    (hf : env (remote_file_path nc tr (osPathJoin f.root f.name)) f.content = some e) :
    ∀ pre : List (WalkFile β),
      (∀ g ∈ pre, env (remote_file_path nc tr (osPathJoin g.root g.name)) g.content = none) →
      (uploadLoop ε β env nc tr (pre ++ f :: post)).1 =
        pre.map (fun g => (remote_file_path nc tr (osPathJoin g.root g.name), g.content)) ++
          [(remote_file_path nc tr (osPathJoin f.root f.name), f.content)] ∧
      (uploadLoop ε β env nc tr (pre ++ f :: post)).2.2 = some e := by
  intro pre
  induction pre with
  | nil =>
    intro _
    simp [uploadLoop, hf]
  | cons g gs ih =>
    intro hpre
    have hg := hpre g (by simp)
    have ihs := ih (fun x hx => hpre x (by simp [hx]))
    simp only [List.cons_append, uploadLoop, hg, List.map_cons, List.append_eq]
    exact ⟨by rw [ihs.1], ihs.2⟩

/-- Claim C8: if uploading one file raises, the uploader aborts the whole
run — the raise propagates out of `upload_docs_to_nextcloud`, the files after
the failing one in walk order are never uploaded, and each file before it was
attempted exactly once (no retry, no partial-success bookkeeping). -/
theorem upload_error_aborts_run (ε β : Type) (env : String → β → Option ε) (nc tr : String)
    (pre : List (WalkFile β)) (f : WalkFile β) (post : List (WalkFile β)) (e : ε)
    (hpre : ∀ g ∈ pre, env (remote_file_path nc tr (osPathJoin g.root g.name)) g.content = none)
    (hf : env (remote_file_path nc tr (osPathJoin f.root f.name)) f.content = some e) :
    (upload_docs_to_nextcloud ε β env nc tr (pre ++ f :: post)).raised = some e ∧
    (upload_docs_to_nextcloud ε β env nc tr (pre ++ f :: post)).calls =
      pre.map (fun g => (remote_file_path nc tr (osPathJoin g.root g.name), g.content)) ++
        [(remote_file_path nc tr (osPathJoin f.root f.name), f.content)] := by
  have h := uploadLoop_error ε β env nc tr f post e hf pre hpre
  exact ⟨h.2, h.1⟩

/-- Witness for claim C8: one successful upload, then a raising upload, then a
file that is never reached. -/
theorem upload_error_aborts_run_witness :
    ((fun p (_ : Nat) => if p = "B/b" then (some 7 : Option Nat) else none)
        (remote_file_path "B" "d" (osPathJoin "d" "b")) 1 = some 7) ∧
    (upload_docs_to_nextcloud Nat Nat
        (fun p _ => if p = "B/b" then (some 7 : Option Nat) else none) "B" "d"
        ([WalkFile.mk "d" "a" 0] ++ WalkFile.mk "d" "b" 1 :: [WalkFile.mk "d" "c" 2])).raised =
      some 7 :=
  ⟨by decide,
   (upload_error_aborts_run Nat Nat
      (fun p _ => if p = "B/b" then (some 7 : Option Nat) else none) "B" "d"
      [WalkFile.mk "d" "a" 0] (WalkFile.mk "d" "b" 1) [WalkFile.mk "d" "c" 2] 7
      (by
        intro g hg
        rw [List.mem_singleton.mp hg]
        decide)
      (by decide)).1⟩

/-- Witness for claim C6 at target `downloads` and date 2026-10-12. -/
theorem csv_export_fixed_names_witness :
    ("downloads" ≠ "" ∧ strEndsWith "downloads" "/" = false) ∧
    pytr_pp_csv_args "downloads" 2026 10 12 =
      ["pytr", "export_transactions",
       "downloads/all_events.json", "downloads/20261012_pp_import.csv"] :=
  ⟨⟨by decide, by decide⟩,
   by rw [csv_export_fixed_names "downloads" 2026 10 12 (by decide) (by decide)]; decide⟩

end GetTrDocs
